import Mathlib

/-!
Verification of the GNearby core against its specification.

The development shallowly embeds the four source files:
  src/a_win32_dll/nearby_connection_impl.h            (ByteChannel)
  src/presence/implementation/service_controller_impl.h (SessionController)
  src/internal/platform/implementation/linux/bluetooth_classic_device.h (RadioDevice)
  src/internal/platform/implementation/linux/device_info.cc (device metadata)

Callbacks are modelled by identity tokens (Nat); an operation that may invoke
callbacks returns, besides the successor state, the list of invocations it
performed, in order. Mutex acquisition is not modelled: each C++ method body
runs under the object lock, so a method is one atomic step on the state.
-/

namespace GNearby

/-- Byte buffer (std::vector of uint8_t). Byte values are opaque to all the
channel logic, so bytes are plain Nat. -/
abbrev Buffer := List Nat

/-- Error raised by a write on a torn-down channel. -/
inductive WriteError
  | Closed
deriving Repr, DecidableEq

/-- Error raised by a conflicting read-callback registration. -/
inductive RegisterError
  | AlreadyRegistered
deriving Repr, DecidableEq

/-- Modelled from the spec: state of NearbyConnectionImpl (the ByteChannel).
The repository holds only the class declaration (nearby_connection_impl.h);
nearby_connection_impl.cc is absent, so the fields follow the declaration
plus the `closed` boolean required by the data model of the spec.
`read_callback_` and `disconnect_listener_` hold callback identities,
none standing for nullptr; `reads_` is the inbound FIFO queue. -/
structure NearbyConnectionImpl where
  endpoint_id_ : String
  read_callback_ : Option Nat
  disconnect_listener_ : Option Nat
  reads_ : List Buffer
  closed : Bool
deriving Repr, DecidableEq

namespace NearbyConnectionImpl

/-- Constructor NearbyConnectionImpl(endpoint_id): empty queue, no callbacks,
not closed. -/
def construct (endpoint_id : String) : NearbyConnectionImpl :=
  { endpoint_id_ := endpoint_id
    read_callback_ := none
    disconnect_listener_ := none
    reads_ := []
    closed := false }

/-- Modelled from the spec: WriteMessage (enqueueInbound) appends the buffer
to the read queue, then invokes the current read callback, if one is
registered, with exactly the newly appended buffer; the buffer consumed by
the callback does not stay queued. Returns the new state and the list of
(callback, buffer) deliveries performed. -/
def WriteMessage (ch : NearbyConnectionImpl) (bytes : Buffer) :
    NearbyConnectionImpl × List (Nat × Buffer) :=
  match ch.read_callback_ with
  | some cb => (ch, [(cb, bytes)])
  | none => ({ ch with reads_ := ch.reads_ ++ [bytes] }, [])

/-- Modelled from the spec: Read (registerReadCallback) installs the callback
as sole consumer, failing with AlreadyRegistered when a different callback is
active; buffers already queued are delivered to the new callback in enqueue
order. Returns the new state and the deliveries performed. -/
def Read (ch : NearbyConnectionImpl) (cb : Nat) :
    Except RegisterError (NearbyConnectionImpl × List (Nat × Buffer)) :=
  match ch.read_callback_ with
  | some other =>
      if other = cb then
        .ok ({ ch with read_callback_ := some cb, reads_ := [] },
             ch.reads_.map (fun b => (cb, b)))
      else .error .AlreadyRegistered
  | none =>
      .ok ({ ch with read_callback_ := some cb, reads_ := [] },
           ch.reads_.map (fun b => (cb, b)))

/-- Modelled from the spec: Write fails with Closed on a closed channel and
otherwise hands the bytes to the external transport, leaving the channel
state unchanged. -/
def Write (ch : NearbyConnectionImpl) (bytes : Buffer) :
    Except WriteError NearbyConnectionImpl :=
  if ch.closed then .error .Closed else .ok ch

/-- Modelled from the spec: Close is idempotent; the first call sets `closed`
and invokes the disconnect listener when one is installed, a later call is a
no-op. Returns the new state and the number of disconnect-listener
invocations this call performed. -/
def Close (ch : NearbyConnectionImpl) : NearbyConnectionImpl × Nat :=
  if ch.closed then (ch, 0)
  else ({ ch with closed := true },
        if ch.disconnect_listener_.isSome then 1 else 0)

/-- Modelled from the spec: SetDisconnectionListener replaces any previous
listener. -/
def SetDisconnectionListener (ch : NearbyConnectionImpl) (l : Nat) :
    NearbyConnectionImpl :=
  { ch with disconnect_listener_ := some l }

/-- A sequence of WriteMessage calls, collecting all deliveries in order. -/
def writeMessages :
    NearbyConnectionImpl → List Buffer → NearbyConnectionImpl × List (Nat × Buffer)
  | ch, [] => (ch, [])
  | ch, b :: bs =>
      let r := WriteMessage ch b
      let r2 := writeMessages r.1 bs
      (r2.1, r.2 ++ r2.2)

/-- One application-visible channel operation, for stating properties that
quantify over every later call sequence. -/
inductive ChannelOp
  | read (cb : Nat)
  | write (b : Buffer)
  | writeMsg (b : Buffer)
  | close
  | setDisconnect (l : Nat)
deriving Repr, DecidableEq

/-- The state reached by one operation (results and deliveries dropped). -/
def runOp (ch : NearbyConnectionImpl) : ChannelOp → NearbyConnectionImpl
  | .read cb =>
      match Read ch cb with
      | .ok r => r.1
      | .error _ => ch
  | .write b =>
      match Write ch b with
      | .ok r => r
      | .error _ => ch
  | .writeMsg b => (WriteMessage ch b).1
  | .close => (Close ch).1
  | .setDisconnect l => SetDisconnectionListener ch l

/-- The state reached by a sequence of operations. -/
def runOps (ch : NearbyConnectionImpl) (ops : List ChannelOp) :
    NearbyConnectionImpl :=
  ops.foldl runOp ch

/-- Close called n times in sequence, counting total listener invocations. -/
def closeN : NearbyConnectionImpl → Nat → NearbyConnectionImpl × Nat
  | ch, 0 => (ch, 0)
  | ch, n + 1 =>
      let r := Close ch
      let r2 := closeN r.1 n
      (r2.1, r.2 + r2.2)

theorem writeMessages_no_callback (bs : List Buffer) :
    ∀ ch : NearbyConnectionImpl, ch.read_callback_ = none →
      writeMessages ch bs = ({ ch with reads_ := ch.reads_ ++ bs }, []) := by
  induction bs with
  | nil => intro ch h; simp [writeMessages]
  | cons b bs ih =>
      intro ch h
      simp only [writeMessages, WriteMessage, h]
      rw [ih { ch with read_callback_ := none, reads_ := ch.reads_ ++ [b] } rfl]
      simp

theorem runOp_closed (ch : NearbyConnectionImpl) (op : ChannelOp)
    (h : ch.closed = true) : (runOp ch op).closed = true := by
  cases op with
  | read cb =>
      simp only [runOp, Read]
      cases hc : ch.read_callback_ with
      | none => simpa using h
      | some other =>
          by_cases hcb : other = cb <;> simp [hcb] <;> exact h
  | write b => simp [runOp, Write, h]
  | writeMsg b =>
      simp only [runOp, WriteMessage]
      cases hc : ch.read_callback_ <;> simpa using h
  | close => simp [runOp, Close, h]
  | setDisconnect l => simpa [runOp, SetDisconnectionListener] using h

theorem runOps_closed (ops : List ChannelOp) :
    ∀ ch : NearbyConnectionImpl, ch.closed = true →
      (runOps ch ops).closed = true := by
  induction ops with
  | nil => intro ch h; simpa [runOps] using h
  | cons op ops ih =>
      intro ch h
      simpa [runOps, List.foldl_cons] using ih (runOp ch op) (runOp_closed ch op h)

theorem closeN_closed (n : Nat) :
    ∀ ch : NearbyConnectionImpl, ch.closed = true → closeN ch n = (ch, 0) := by
  induction n with
  | zero => intro ch _; simp [closeN]
  | succ n ih =>
      intro ch h
      simp only [closeN, Close, h, if_true]
      rw [ih ch h]
      simp

end NearbyConnectionImpl

open NearbyConnectionImpl in
/-- C1: on a fresh channel, a sequence of WriteMessage (enqueueInbound) calls
delivers nothing (no callback is registered yet), and the following single
Read (registerReadCallback) succeeds and delivers to the registered callback
every buffered item, in the original enqueue order, each exactly once: the
delivery list is exactly the enqueue list. -/
theorem c1_read_after_enqueues_delivers_in_order (pid : String)
    (bs : List Buffer) (cb : Nat) :
    (writeMessages (construct pid) bs).2 = [] ∧
    Read (writeMessages (construct pid) bs).1 cb =
      .ok ({ (writeMessages (construct pid) bs).1 with
               read_callback_ := some cb, reads_ := [] },
           bs.map (fun b => (cb, b))) := by
  have h := writeMessages_no_callback bs (construct pid) rfl
  rw [h]
  simp [Read, construct]

open NearbyConnectionImpl in
/-- C3: after Close, every subsequent Write fails with Closed: whatever
sequence of further operations runs between the Close and the Write, the
channel stays closed and the Write returns the Closed error. -/
theorem c3_write_after_close_fails (ch : NearbyConnectionImpl)
    (ops : List ChannelOp) (b : Buffer) :
    Write (runOps (Close ch).1 ops) b = .error .Closed := by
  have hclosed : (Close ch).1.closed = true := by
    by_cases h : ch.closed <;> simp [Close, h]
  have h2 := runOps_closed ops (Close ch).1 hclosed
  simp [Write, h2]

open NearbyConnectionImpl in
/-- C4: Close is idempotent: on a channel that is open and has a disconnect
listener installed, calling Close n > 1 times invokes the listener exactly
once in total, never on the second or a later call, and every call returns
(closeN is total and the final state is closed). -/
theorem c4_close_idempotent (ch : NearbyConnectionImpl) (n : Nat)
    (hopen : ch.closed = false) (hl : ch.disconnect_listener_.isSome = true)
    (hn : 1 < n) :
    (closeN ch n).2 = 1 ∧ (closeN ch n).1.closed = true := by
  obtain ⟨m, rfl⟩ : ∃ m, n = m + 1 := ⟨n - 1, by omega⟩
  have hfirst : Close ch = ({ ch with closed := true }, 1) := by
    simp [Close, hopen, hl]
  have hrest := closeN_closed m { ch with closed := true } rfl
  simp [closeN, hfirst, hrest]

/-- Witness for C4 at a concrete channel and n = 3. -/
theorem c4_close_idempotent_witness :
    (NearbyConnectionImpl.closeN
      { endpoint_id_ := "EP1", read_callback_ := none,
        disconnect_listener_ := some 1, reads_ := [], closed := false } 3).2 = 1 :=
  (c4_close_idempotent
    { endpoint_id_ := "EP1", read_callback_ := none,
      disconnect_listener_ := some 1, reads_ := [], closed := false } 3
    rfl rfl (by decide)).1

/-- BroadcastSessionId is a 64-bit integer; only freshness matters here, so
ids are plain Nat. -/
abbrev BroadcastSessionId := Nat

/-- State of ServiceControllerImpl: the keys of the
sessions_ hash map from BroadcastSessionId to Session. The Session payload
(the advertising handle) plays no role in the id claims. -/
structure ServiceControllerImpl where
  sessions_ : List BroadcastSessionId
deriving Repr, DecidableEq

namespace ServiceControllerImpl

/-- Modelled from the spec: GenerateBroadcastSessionId draws candidates from
bit_gen_ and regenerates on collision with a live id, with a defensive bound;
service_controller_impl.cc is absent from src, only the declaration is
present. The random draws are abstracted as the candidate list; the result is
the first candidate that is not currently a key of sessions_, none when the
bound is exhausted (IdSpaceExhausted). -/
def GenerateBroadcastSessionId (cands : List BroadcastSessionId)
    (ctl : ServiceControllerImpl) : Option BroadcastSessionId :=
  cands.find? (fun c => !(ctl.sessions_.contains c))

/-- Modelled from the spec: StartBroadcast generates a fresh id, stores the
Session under it and returns the id; none when id generation fails.
Authorization and medium startup involve external collaborators and do not
touch the id bookkeeping, so they are omitted. -/
def StartBroadcast (ctl : ServiceControllerImpl)
    (cands : List BroadcastSessionId) :
    Option (BroadcastSessionId × ServiceControllerImpl) :=
  match GenerateBroadcastSessionId cands ctl with
  | none => none
  | some id => some (id, ⟨id :: ctl.sessions_⟩)

/-- Modelled from the spec: StopBroadcast removes the map entry, a no-op on
an unknown id. -/
def StopBroadcast (ctl : ServiceControllerImpl) (id : BroadcastSessionId) :
    ServiceControllerImpl :=
  ⟨ctl.sessions_.filter (fun s => s != id)⟩

end ServiceControllerImpl

open ServiceControllerImpl in
/-- C2: GenerateBroadcastSessionId never returns an id that is currently a
key of the sessions map; hence StartBroadcast, which stores the returned id,
keeps the live session ids pairwise distinct (Nodup). -/
theorem c2_broadcast_session_ids_fresh (ctl : ServiceControllerImpl)
    (cands : List BroadcastSessionId) (id : BroadcastSessionId)
    (ctl2 : ServiceControllerImpl) (hnd : ctl.sessions_.Nodup)
    (h : StartBroadcast ctl cands = some (id, ctl2)) :
    id ∉ ctl.sessions_ ∧ ctl2.sessions_ = id :: ctl.sessions_ ∧
      ctl2.sessions_.Nodup := by
  unfold StartBroadcast at h
  cases hg : GenerateBroadcastSessionId cands ctl with
  | none => rw [hg] at h; exact absurd h (by simp)
  | some id0 =>
      rw [hg] at h
      have hp := List.find?_some hg
      have hmem : id0 ∉ ctl.sessions_ := by
        simpa using hp
      obtain ⟨h1, h2⟩ : id0 = id ∧ (⟨id0 :: ctl.sessions_⟩ : ServiceControllerImpl) = ctl2 := by
        simpa using h
      subst h1 h2
      exact ⟨hmem, rfl, List.nodup_cons.mpr ⟨hmem, hnd⟩⟩

/-- Witness for C2 at a concrete controller with live ids 1 and 2 and
candidate draws 1, 2, 5. -/
theorem c2_broadcast_session_ids_fresh_witness :
    (5 : BroadcastSessionId) ∉ [1, 2] ∧
      ([5, 1, 2] : List BroadcastSessionId) = 5 :: [1, 2] ∧
      ([5, 1, 2] : List BroadcastSessionId).Nodup :=
  c2_broadcast_session_ids_fresh ⟨[1, 2]⟩ [1, 2, 5] 5 ⟨[5, 1, 2]⟩
    (by decide) (by decide)

/-- State of BluetoothDevice (bluetooth_classic_device.h): the pending
pairing callback slot (none standing for the nullptr AnyInvocable), the
unique id, the atomic lost flag and the two cached identity strings. -/
structure BluetoothDevice where
  on_pair_reply_cb_ : Option Nat
  unique_id_ : Nat
  lost_ : Bool
  last_known_name_ : String
  last_known_address_ : String
deriving Repr, DecidableEq

namespace BluetoothDevice

/-- set_pair_reply_callback: stores the callback in the slot under the
lock. -/
def set_pair_reply_callback (d : BluetoothDevice) (cb : Nat) :
    BluetoothDevice :=
  { d with on_pair_reply_cb_ := some cb }

/-- reset_pair_reply_callback: nulls the slot under the lock. -/
def reset_pair_reply_callback (d : BluetoothDevice) : BluetoothDevice :=
  { d with on_pair_reply_cb_ := none }

/-- onPairReply: under a reader lock, invokes the slot with the sdbus error
pointer when the slot is non-null; the slot itself is not written. The error
argument is modelled as a Bool (true when the reply carries an error) and the
invocations performed are returned next to the unchanged state. -/
def onPairReply (d : BluetoothDevice) (isError : Bool) :
    BluetoothDevice × List (Nat × Bool) :=
  match d.on_pair_reply_cb_ with
  | some cb => (d, [(cb, isError)])
  | none => (d, [])

/-- MarkLost: lost_ = true. -/
def MarkLost (d : BluetoothDevice) : BluetoothDevice :=
  { d with lost_ := true }

/-- UnmarkLost: lost_ = false. -/
def UnmarkLost (d : BluetoothDevice) : BluetoothDevice :=
  { d with lost_ := false }

/-- Lost: reads the flag. -/
def Lost (d : BluetoothDevice) : Bool :=
  d.lost_

/-- Modelled from the spec: GetName returns the cached last_known_name_;
the .cc body is absent from src, the spec states that identity reads return
cached state refreshed only by property changes. -/
def GetName (d : BluetoothDevice) : String :=
  d.last_known_name_

/-- Modelled from the spec: GetMacAddress returns the cached
last_known_address_, as GetName does the cached name. -/
def GetMacAddress (d : BluetoothDevice) : String :=
  d.last_known_address_

/-- GetUniqueId: reads unique_id_. -/
def GetUniqueId (d : BluetoothDevice) : Nat :=
  d.unique_id_

end BluetoothDevice

/-- A weak reference (std::weak_ptr): the target together with the liveness
of its owning shared_ptr. -/
structure WeakRef (α : Type) where
  target : α
  alive : Bool
deriving Repr, DecidableEq

/-- lock on a weak_ptr: some target while the owner is alive, none after it
was destroyed; never a fault. -/
def WeakRef.lock {α : Type} (w : WeakRef α) : Option α :=
  if w.alive then some w.target else none

/-- State of MonitoredBluetoothDevice: the base BluetoothDevice plus the
weakly referenced discovery callback (callback identity behind a WeakRef). -/
structure MonitoredBluetoothDevice where
  base : BluetoothDevice
  discovery_cb_ : WeakRef Nat
deriving Repr, DecidableEq

/-- One PropertiesChanged notification, reduced to the recognized identity
keys: an optional new Name and an optional new Address. -/
structure PropertiesChange where
  name : Option String
  address : Option String
deriving Repr, DecidableEq

namespace MonitoredBluetoothDevice

/-- GetDiscoveryCallback: locks discovery_cb_ under the reader lock and
returns the resulting (possibly null) shared_ptr. -/
def GetDiscoveryCallback (d : MonitoredBluetoothDevice) : Option Nat :=
  d.discovery_cb_.lock

/-- Modelled from the spec: onPropertiesChanged updates the cached identity
fields for recognized keys and invokes the weakly held discovery callback
when still alive, silently doing nothing when the referent is gone; the .cc
body is absent from src, only the override declaration is present. Returns
the new state and the discovery callbacks invoked. -/
def onPropertiesChanged (d : MonitoredBluetoothDevice)
    (ch : PropertiesChange) : MonitoredBluetoothDevice × List Nat :=
  let base2 :=
    { d.base with
        last_known_name_ := ch.name.getD d.base.last_known_name_
        last_known_address_ := ch.address.getD d.base.last_known_address_ }
  match GetDiscoveryCallback d with
  | some cb => ({ d with base := base2 }, [cb])
  | none => ({ d with base := base2 }, [])

end MonitoredBluetoothDevice

open MonitoredBluetoothDevice in
/-- C5: when the subscriber owning the discovery callback has been destroyed
(the weak reference is dead), GetDiscoveryCallback yields absent rather than
a fault, and onPropertiesChanged completes, invoking no callback. -/
theorem c5_dead_subscriber_not_invoked (d : MonitoredBluetoothDevice)
    (ch : PropertiesChange) (h : d.discovery_cb_.alive = false) :
    GetDiscoveryCallback d = none ∧ (onPropertiesChanged d ch).2 = [] := by
  have hg : GetDiscoveryCallback d = none := by
    simp [GetDiscoveryCallback, WeakRef.lock, h]
  exact ⟨hg, by simp [onPropertiesChanged, hg]⟩

/-- Witness for C5 at a concrete device whose subscriber is destroyed. -/
theorem c5_dead_subscriber_not_invoked_witness :
    MonitoredBluetoothDevice.GetDiscoveryCallback
        ⟨⟨none, 42, false, "Pixel", "AA:BB"⟩, ⟨3, false⟩⟩ = none ∧
      (MonitoredBluetoothDevice.onPropertiesChanged
        ⟨⟨none, 42, false, "Pixel", "AA:BB"⟩, ⟨3, false⟩⟩
        ⟨some "Pixel-7", none⟩).2 = [] :=
  c5_dead_subscriber_not_invoked
    ⟨⟨none, 42, false, "Pixel", "AA:BB"⟩, ⟨3, false⟩⟩
    ⟨some "Pixel-7", none⟩ rfl

/-- Counterexample to C6: on a device whose pairing callback slot holds
callback 7, a driver reply does not clear the slot, and a second driver
reply invokes the callback again, contrary to the claim. -/
theorem c6_counterexample :
    (BluetoothDevice.onPairReply
        ⟨some 7, 42, false, "Pixel", "AA:BB"⟩ true).1.on_pair_reply_cb_ ≠ none ∧
      (BluetoothDevice.onPairReply
        (BluetoothDevice.onPairReply
          ⟨some 7, 42, false, "Pixel", "AA:BB"⟩ true).1 true).2 ≠ [] := by
  constructor <;> simp [BluetoothDevice.onPairReply]

open BluetoothDevice in
/-- C6 amended: while a pending pairing callback is installed, each driver
reply invokes it exactly once with the success/error result; onPairReply
leaves the slot unchanged, so the slot is cleared only by an explicit
reset_pair_reply_callback (or replaced by set_pair_reply_callback), and
after a reset a driver reply invokes nothing. -/
theorem c6_pair_reply_invokes_installed_callback (d : BluetoothDevice)
    (cb : Nat) (e : Bool) :
    (onPairReply (set_pair_reply_callback d cb) e).2 = [(cb, e)] ∧
      (onPairReply (set_pair_reply_callback d cb) e).1 =
        set_pair_reply_callback d cb ∧
      (onPairReply (reset_pair_reply_callback d) e).2 = [] := by
  refine ⟨?_, ?_, ?_⟩ <;>
    simp [onPairReply, set_pair_reply_callback, reset_pair_reply_callback]

open BluetoothDevice in
/-- C7: MarkLost and UnmarkLost change only the lost_ flag: the cached name,
cached MAC address, unique id and pairing-callback slot are untouched, so
after MarkLost the device reads Lost while GetName and GetMacAddress still
return the last cached values. -/
theorem c7_markLost_touches_only_lost_flag (d : BluetoothDevice) :
    Lost (MarkLost d) = true ∧
      GetName (MarkLost d) = GetName d ∧
      GetMacAddress (MarkLost d) = GetMacAddress d ∧
      GetUniqueId (MarkLost d) = GetUniqueId d ∧
      (MarkLost d).on_pair_reply_cb_ = d.on_pair_reply_cb_ ∧
      Lost (UnmarkLost d) = false ∧
      GetName (UnmarkLost d) = GetName d ∧
      GetMacAddress (UnmarkLost d) = GetMacAddress d ∧
      GetUniqueId (UnmarkLost d) = GetUniqueId d ∧
      (UnmarkLost d).on_pair_reply_cb_ = d.on_pair_reply_cb_ := by
  refine ⟨rfl, rfl, rfl, rfl, rfl, rfl, rfl, rfl, rfl, rfl⟩

/-- Process environment as seen by getenv: a variable name maps to its value
when the variable is set, none otherwise. -/
def Env : Type := String → Option String

/-- Result of a path lookup of device_info.cc. nullDeref marks the undefined
behavior of constructing a std::string from the null pointer getenv returns
for an unset variable. -/
inductive PathResult
  | ok (p : String)
  | nullDeref
deriving Repr, DecidableEq

namespace DeviceInfo

/-- GetDownloadPath (device_info.cc): reads XDG_DOWNLOAD_DIR and passes the
result to std::string with no null check, then wraps it in a path. -/
def GetDownloadPath (env : Env) : PathResult :=
  match env "XDG_DOWNLOAD_DIR" with
  | none => .nullDeref
  | some dir => .ok dir

/-- GetLocalAppDataPath (device_info.cc): reads XDG_CONFIG_HOME, falling back
to /tmp when unset, else appending Google Nearby. -/
def GetLocalAppDataPath (env : Env) : PathResult :=
  match env "XDG_CONFIG_HOME" with
  | none => .ok "/tmp"
  | some dir => .ok (dir ++ "/Google Nearby")

/-- GetTemporaryPath (device_info.cc): reads XDG_RUNTIME_PATH, falling back
to /tmp when unset, else appending Google Nearby. -/
def GetTemporaryPath (env : Env) : PathResult :=
  match env "XDG_RUNTIME_PATH" with
  | none => .ok "/tmp"
  | some dir => .ok (dir ++ "/Google Nearby")

/-- GetLogPath (device_info.cc): reads XDG_STATE_HOME, falling back to /tmp
when unset, else appending Google Nearby/logs. -/
def GetLogPath (env : Env) : PathResult :=
  match env "XDG_STATE_HOME" with
  | none => .ok "/tmp"
  | some dir => .ok (dir ++ "/Google Nearby/logs")

/-- GetCrashDumpPath (device_info.cc): reads XDG_STATE_HOME, falling back to
/tmp when unset, else appending Google Nearby/crashes. -/
def GetCrashDumpPath (env : Env) : PathResult :=
  match env "XDG_STATE_HOME" with
  | none => .ok "/tmp"
  | some dir => .ok (dir ++ "/Google Nearby/crashes")

end DeviceInfo

/-- Environment with no XDG variable set. -/
def emptyEnv : Env := fun _ => none

open DeviceInfo in
/-- C8: in an environment with every XDG variable absent, the four guarded
lookups return the well-defined /tmp fallback, but GetDownloadPath performs
no null check and dereferences the null pointer from getenv: the claim fails
for GetDownloadPath, which faults instead of falling back. -/
theorem c8_downloadPath_faults_on_absent_env :
    GetDownloadPath emptyEnv = .nullDeref ∧
      GetLocalAppDataPath emptyEnv = .ok "/tmp" ∧
      GetTemporaryPath emptyEnv = .ok "/tmp" ∧
      GetLogPath emptyEnv = .ok "/tmp" ∧
      GetCrashDumpPath emptyEnv = .ok "/tmp" :=
  ⟨rfl, rfl, rfl, rfl, rfl⟩

/-- Callback invocation observed by a screen-lock listener. -/
inductive ScreenStatus
  | kLocked
  | kUnlocked
deriving Repr, DecidableEq

/-- State of CurrentUserSession: the screen_lock_listeners_ map from listener
name to callback, as an association list with pairwise-distinct keys kept in
registration order; callbacks are identity tokens. -/
structure CurrentUserSession where
  screen_lock_listeners_ : List (String × Nat)
deriving Repr, DecidableEq

namespace CurrentUserSession

/-- The listener names currently registered. -/
def names (s : CurrentUserSession) : List String :=
  s.screen_lock_listeners_.map Prod.fst

/-- RegisterScreenLockedListener: map subscript assignment; replaces the
callback of an existing name, else inserts a new entry. -/
def RegisterScreenLockedListener (s : CurrentUserSession) (name : String)
    (cb : Nat) : CurrentUserSession :=
  if s.names.contains name then
    ⟨s.screen_lock_listeners_.map fun p => if p.1 = name then (name, cb) else p⟩
  else ⟨s.screen_lock_listeners_ ++ [(name, cb)]⟩

/-- UnregisterScreenLockedListener: erases the entry of the name, a no-op
when absent. -/
def UnregisterScreenLockedListener (s : CurrentUserSession) (name : String) :
    CurrentUserSession :=
  ⟨s.screen_lock_listeners_.filter fun p => p.1 != name⟩

/-- onLock: invokes every registered callback with kLocked; returns the
invocations in registry order. -/
def onLock (s : CurrentUserSession) : List (Nat × ScreenStatus) :=
  s.screen_lock_listeners_.map fun p => (p.2, ScreenStatus.kLocked)

/-- onUnlock: invokes every registered callback with kUnlocked. -/
def onUnlock (s : CurrentUserSession) : List (Nat × ScreenStatus) :=
  s.screen_lock_listeners_.map fun p => (p.2, ScreenStatus.kUnlocked)

end CurrentUserSession

open CurrentUserSession in
/-- C9: after UnregisterScreenLockedListener the name is gone from the
registry, and onLock and onUnlock invoke exactly the callbacks of the
entries currently registered (so never the unregistered listener); and
RegisterScreenLockedListener on an existing name replaces that callback in
place, leaving the name list unchanged rather than adding a second entry. -/
theorem c9_unregister_removes_and_register_replaces (s : CurrentUserSession)
    (name : String) (cb : Nat) :
    name ∉ (UnregisterScreenLockedListener s name).names ∧
      onLock (UnregisterScreenLockedListener s name) =
        (UnregisterScreenLockedListener s name).screen_lock_listeners_.map
          (fun p => (p.2, ScreenStatus.kLocked)) ∧
      onUnlock (UnregisterScreenLockedListener s name) =
        (UnregisterScreenLockedListener s name).screen_lock_listeners_.map
          (fun p => (p.2, ScreenStatus.kUnlocked)) ∧
      (s.names.contains name = true →
        (RegisterScreenLockedListener s name cb).names = s.names) := by
  refine ⟨?_, rfl, rfl, ?_⟩
  · simp only [UnregisterScreenLockedListener, names, List.mem_map]
    rintro ⟨p, hp, rfl⟩
    have := List.of_mem_filter hp
    simp at this
  · intro hmem
    simp only [names] at hmem
    simp only [RegisterScreenLockedListener, names, hmem, if_true, List.map_map]
    apply List.map_congr_left
    intro p _
    by_cases hp : p.1 = name <;> simp [hp]

/-- Witness for C9 at a concrete registry holding listeners a and b. -/
theorem c9_unregister_removes_and_register_replaces_witness :
    "a" ∉ (CurrentUserSession.UnregisterScreenLockedListener ⟨[("a", 1), ("b", 2)]⟩ "a").names ∧
      (CurrentUserSession.RegisterScreenLockedListener ⟨[("a", 1), ("b", 2)]⟩ "a" 9).names =
        (⟨[("a", 1), ("b", 2)]⟩ : CurrentUserSession).names :=
  ⟨(c9_unregister_removes_and_register_replaces ⟨[("a", 1), ("b", 2)]⟩ "a" 9).1,
   (c9_unregister_removes_and_register_replaces ⟨[("a", 1), ("b", 2)]⟩ "a" 9).2.2.2 (by decide)⟩

/-- State of DeviceInfo relevant to sleep inhibition: the optional inhibit
file descriptor handed out by the login manager. -/
structure DeviceInfoSleep where
  inhibit_fd_ : Option Nat
deriving Repr, DecidableEq

namespace DeviceInfoSleep

/-- PreventSleep (device_info.cc): asks the login manager for an inhibit fd;
on success stores it and returns true, on a thrown sdbus error leaves the
state unchanged and returns false. The external Inhibit call result is
passed in as an Option. -/
def PreventSleep (s : DeviceInfoSleep) (inhibitResult : Option Nat) :
    Bool × DeviceInfoSleep :=
  match inhibitResult with
  | some fd => (true, { s with inhibit_fd_ := some fd })
  | none => (false, s)

/-- AllowSleep (device_info.cc): when no inhibit fd is held, logs and returns
false leaving the state unchanged; otherwise resets the fd and returns
true. -/
def AllowSleep (s : DeviceInfoSleep) : Bool × DeviceInfoSleep :=
  match s.inhibit_fd_ with
  | none => (false, s)
  | some _ => (true, { s with inhibit_fd_ := none })

end DeviceInfoSleep

open DeviceInfoSleep in
/-- C10: AllowSleep returns false and leaves the state unchanged when no
inhibit lock is held; when one is held it releases the lock and returns
true, after which a second consecutive AllowSleep returns false and changes
nothing. -/
theorem c10_allowSleep_release_once (s : DeviceInfoSleep) :
    (s.inhibit_fd_ = none → AllowSleep s = (false, s)) ∧
      (∀ fd, s.inhibit_fd_ = some fd →
        AllowSleep s = (true, ⟨none⟩) ∧
          AllowSleep (AllowSleep s).2 = (false, ⟨none⟩)) := by
  constructor
  · intro h; simp [AllowSleep, h]
  · intro fd h; simp [AllowSleep, h]

/-- Witness for C10 at the empty state and at a state holding fd 3. -/
theorem c10_allowSleep_release_once_witness :
    DeviceInfoSleep.AllowSleep ⟨none⟩ = (false, ⟨none⟩) ∧
      DeviceInfoSleep.AllowSleep ⟨some 3⟩ = (true, ⟨none⟩) ∧
      DeviceInfoSleep.AllowSleep
        (DeviceInfoSleep.AllowSleep ⟨some 3⟩).2 = (false, ⟨none⟩) :=
  ⟨(c10_allowSleep_release_once ⟨none⟩).1 rfl,
   ((c10_allowSleep_release_once ⟨some 3⟩).2 3 rfl).1,
   ((c10_allowSleep_release_once ⟨some 3⟩).2 3 rfl).2⟩

end GNearby
